import Mathlib

/-!
Shallow embedding of the quota / usage-limiting stored procedures of the
ThetAI repository (Postgres functions `check_and_reset_usage`,
`get_user_limits`, `increment_message_usage`, `increment_image_gen_usage`
of the usage-limits migration, and `apply_promo_and_upgrade` of the
promo-code migration).

Timestamps are modelled as integers (seconds); `now()` is constant within
one procedure invocation (a single Postgres transaction), so every
operation takes the current time `now : Int` as an explicit argument.
The per-user row of the `profiles` table is the `Profile` structure;
each stored procedure becomes a pure function from the incoming row (and
`now`) to its return value and the outgoing row.
-/

namespace ThetAI

/-- Seconds in `h` hours: `interval 'h hours'`. -/
def hoursI (h : Int) : Int := h * 3600

/-- The per-user columns of `public.profiles` that the quota engine and the
promo upgrade read or write. Counters are SQL `INTEGER`, hence `Int`. -/
structure Profile where
  is_plus : Bool
  messages_used : Int
  images_in_prompts_used : Int
  images_generated_today : Int
  usage_reset_at : Int
  image_gen_reset_at : Int
  tcoins : Int
  plus_expires_at : Option Int
deriving Repr, DecidableEq

/-- Row created by `handle_new_user` at account creation: column defaults
give all counters 0 and both reset anchors `now()`; `tcoins` is inserted
as 100 and `is_plus` defaults to false. -/
def newProfile (creation : Int) : Profile :=
  { is_plus := false
    messages_used := 0
    images_in_prompts_used := 0
    images_generated_today := 0
    usage_reset_at := creation
    image_gen_reset_at := creation
    tcoins := 100
    plus_expires_at := none }

/-- Embeds `public.check_and_reset_usage`: reads both anchors, then
resets the 6-hour group iff `usage_reset_at < now() - interval '6 hours'`
and, independently, the 24-hour group iff
`image_gen_reset_at < now() - interval '24 hours'`. -/
def check_and_reset_usage (now : Int) (p : Profile) : Profile :=
  let u := p.usage_reset_at
  let g := p.image_gen_reset_at
  let p1 :=
    if u < now - hoursI 6 then
      { p with messages_used := 0, images_in_prompts_used := 0, usage_reset_at := now }
    else p
  let p2 :=
    if g < now - hoursI 24 then
      { p1 with images_generated_today := 0, image_gen_reset_at := now }
    else p1
  p2

/-- The jsonb object built by `public.get_user_limits`. -/
structure UserLimits where
  is_plus : Bool
  messages_used : Int
  messages_limit : Int
  messages_remaining : Int
  images_in_prompts_used : Int
  images_prompt_limit : Int
  images_prompt_remaining : Int
  images_generated_today : Int
  images_gen_limit : Int
  images_gen_remaining : Int
  usage_resets_at : Int
  image_gen_resets_at : Int
deriving Repr, DecidableEq

/-- Embeds `public.get_user_limits`: first `PERFORM check_and_reset_usage`, then
read the row and build the snapshot; tier limits are 1000/100/15 for plus
and 50/10/5 for free. Returns the snapshot together with the row as the
call leaves it. -/
def get_user_limits (now : Int) (p : Profile) : UserLimits × Profile :=
  let p := check_and_reset_usage now p
  let ml : Int := if p.is_plus then 1000 else 50
  let ipl : Int := if p.is_plus then 100 else 10
  let igl : Int := if p.is_plus then 15 else 5
  ({ is_plus := p.is_plus
     messages_used := p.messages_used
     messages_limit := ml
     messages_remaining := ml - p.messages_used
     images_in_prompts_used := p.images_in_prompts_used
     images_prompt_limit := ipl
     images_prompt_remaining := ipl - p.images_in_prompts_used
     images_generated_today := p.images_generated_today
     images_gen_limit := igl
     images_gen_remaining := igl - p.images_generated_today
     usage_resets_at := p.usage_reset_at + hoursI 6
     image_gen_resets_at := p.image_gen_reset_at + hoursI 24 }, p)

/-- Reason codes of the structured refusals (`'messages_limit'`,
`'images_prompt_limit'`, `'images_gen_limit'`). -/
inductive RefusalReason where
  | messages_limit
  | images_prompt_limit
  | images_gen_limit
deriving Repr, DecidableEq

/-- The jsonb object returned by the two increment procedures: an
`allowed` flag, an optional `reason` key and an optional `resets_at`
key (present only where `jsonb_build_object` lists it). -/
structure QuotaResult where
  allowed : Bool
  reason : Option RefusalReason
  resets_at : Option Int
deriving Repr, DecidableEq

/-- Embeds `public.increment_message_usage(_user_id, _has_image)`:
`PERFORM check_and_reset_usage`; `_limits := get_user_limits(...)`;
refuse with `messages_limit` if `messages_remaining <= 0`; refuse with
`images_prompt_limit` if `_has_image` and `images_prompt_remaining <= 0`;
otherwise `UPDATE` the row, adding 1 to `messages_used` and, when
`_has_image`, 1 to `images_in_prompts_used`. Returns the jsonb result
and the row as the call leaves it. -/
def increment_message_usage (now : Int) (p : Profile) (has_image : Bool) :
    QuotaResult × Profile :=
  let p1 := check_and_reset_usage now p
  let lp := get_user_limits now p1
  let limits := lp.1
  let p2 := lp.2
  if limits.messages_remaining ≤ 0 then
    ({ allowed := false, reason := some .messages_limit, resets_at := none }, p2)
  else if has_image = true ∧ limits.images_prompt_remaining ≤ 0 then
    ({ allowed := false, reason := some .images_prompt_limit, resets_at := none }, p2)
  else
    ({ allowed := true, reason := none, resets_at := none },
     { p2 with
        messages_used := p2.messages_used + 1
        images_in_prompts_used :=
          if has_image then p2.images_in_prompts_used + 1
          else p2.images_in_prompts_used })

/-- Embeds `public.increment_image_gen_usage(_user_id)`:
`PERFORM check_and_reset_usage`; `_limits := get_user_limits(...)`;
refuse with `images_gen_limit` carrying `resets_at :=
_limits->>'image_gen_resets_at'` if `images_gen_remaining <= 0`;
otherwise `UPDATE` the row adding 1 to `images_generated_today`. -/
def increment_image_gen_usage (now : Int) (p : Profile) :
    QuotaResult × Profile :=
  let p1 := check_and_reset_usage now p
  let lp := get_user_limits now p1
  let limits := lp.1
  let p2 := lp.2
  if limits.images_gen_remaining ≤ 0 then
    ({ allowed := false, reason := some .images_gen_limit,
       resets_at := some limits.image_gen_resets_at }, p2)
  else
    ({ allowed := true, reason := none, resets_at := none },
     { p2 with images_generated_today := p2.images_generated_today + 1 })

/-- The promo-code row fields that `apply_promo_and_upgrade` reads. -/
structure PromoCode where
  is_active : Bool
  discount_percent : Int
  code : String
deriving Repr, DecidableEq

/-- Outcome of `public.apply_promo_and_upgrade`. -/
inductive PromoOutcome where
  | invalid_promo
  | user_not_found
  | insufficient_tcoins (required : Int)
  | success (price_paid : Int) (discount : Int)
deriving Repr, DecidableEq

/-- Embeds `public.apply_promo_and_upgrade(_user_id, _promo_id)`: look up the
promo (`WHERE id = _promo_id AND is_active = true`; `none` models NOT
FOUND), look up the profile, compute
`_discounted_price := 500 - (500 * discount_percent / 100)`, refuse if
`tcoins < _discounted_price`, otherwise `UPDATE profiles SET
tcoins = tcoins - _discounted_price, is_plus = true,
plus_expires_at = now() + interval '1 month'`. Returns the outcome and
the (possibly updated) profile row. The month interval is abstracted as
`monthLen` seconds. -/
def apply_promo_and_upgrade (now monthLen : Int) (promo : Option PromoCode)
    (profile : Option Profile) : PromoOutcome × Option Profile :=
  match promo with
  | none => (.invalid_promo, profile)
  | some pr =>
    if pr.is_active = false then (.invalid_promo, profile)
    else
      match profile with
      | none => (.user_not_found, none)
      | some pf =>
        let price : Int := 500 - 500 * pr.discount_percent / 100
        if pf.tcoins < price then (.insufficient_tcoins price, some pf)
        else
          (.success price pr.discount_percent,
           some { pf with
                    tcoins := pf.tcoins - price
                    is_plus := true
                    plus_expires_at := some (now + monthLen) })

/-- One quota-engine operation, for the reachability relation. -/
inductive QuotaOp where
  | checkReset
  | getLimits
  | incMessage (has_image : Bool)
  | incImageGen
deriving Repr, DecidableEq

/-- The row left behind by one quota-engine operation. -/
def applyOp (now : Int) (p : Profile) : QuotaOp → Profile
  | .checkReset => check_and_reset_usage now p
  | .getLimits => (get_user_limits now p).2
  | .incMessage b => (increment_message_usage now p b).2
  | .incImageGen => (increment_image_gen_usage now p).2

/-- Rows reachable from the account-creation row through quota-engine
operations, each at an arbitrary invocation time. -/
inductive Reachable (creation : Int) : Profile → Prop
  | init : Reachable creation (newProfile creation)
  | step (p : Profile) (now : Int) (op : QuotaOp) :
      Reachable creation p → Reachable creation (applyOp now p op)

/-- Iterates `n` successive calls of `increment_message_usage` (no image),
all at time `now`, keeping only the row. -/
def iterMsg (now : Int) : Nat → Profile → Profile
  | 0, p => p
  | n + 1, p => (increment_message_usage now (iterMsg now n p) false).2

/-- Iterates `n` successive calls of `increment_image_gen_usage`, all at
time `now`, keeping only the row. -/
def iterGen (now : Int) : Nat → Profile → Profile
  | 0, p => p
  | n + 1, p => (increment_image_gen_usage now (iterGen now n p)).2

/-- A row at time `now` whose two windows are both fresh (anchors at
`now`), with given tier and counters. -/
def freshProfile (isPlus : Bool) (now m i g : Int) : Profile :=
  { is_plus := isPlus
    messages_used := m
    images_in_prompts_used := i
    images_generated_today := g
    usage_reset_at := now
    image_gen_reset_at := now
    tcoins := 100
    plus_expires_at := none }

/-- Tier table for messages per 6h, as written inline in
`get_user_limits`: 1000 for plus, 50 for free. -/
def msgLimit (plus : Bool) : Int := if plus then 1000 else 50

/-- Tier table for images-in-prompts per 6h: 100 for plus, 10 for free. -/
def imgPromptLimit (plus : Bool) : Int := if plus then 100 else 10

/-- Tier table for image generations per 24h: 15 for plus, 5 for free. -/
def imgGenLimit (plus : Bool) : Int := if plus then 15 else 5

/-- A free-tier row whose 6-hour anchor is fresh (24 hours old at the
reference instant `hoursI 25`) while its 24-hour anchor is stale
(25 hours old at that instant). -/
def pC5 : Profile :=
  { is_plus := false
    messages_used := 7
    images_in_prompts_used := 3
    images_generated_today := 4
    usage_reset_at := hoursI 24
    image_gen_reset_at := 0
    tcoins := 100
    plus_expires_at := none }

/-- An active 50-percent promo row, as inserted for `release26`. -/
def prC9 : PromoCode :=
  { is_active := true, discount_percent := 50, code := "release26" }

/-- A free-tier row mid-window with enough TCoins to upgrade. -/
def pC9 : Profile :=
  { is_plus := false
    messages_used := 12
    images_in_prompts_used := 3
    images_generated_today := 2
    usage_reset_at := 0
    image_gen_reset_at := 0
    tcoins := 500
    plus_expires_at := none }

/-- The row `apply_promo_and_upgrade 0 2592000 (some prC9) (some pC9)`
leaves behind: 250 TCoins paid, plus flag set, expiry stamped. -/
def pC9up : Profile :=
  { pC9 with tcoins := 250, is_plus := true, plus_expires_at := some 2592000 }

/-! ### Basic lemmas about `check_and_reset_usage` -/

theorem check_messages_used (now : Int) (p : Profile) :
    (check_and_reset_usage now p).messages_used =
      if p.usage_reset_at < now - hoursI 6 then 0 else p.messages_used := by
  simp only [check_and_reset_usage]
  split_ifs <;> rfl

theorem check_images_in_prompts_used (now : Int) (p : Profile) :
    (check_and_reset_usage now p).images_in_prompts_used =
      if p.usage_reset_at < now - hoursI 6 then 0 else p.images_in_prompts_used := by
  simp only [check_and_reset_usage]
  split_ifs <;> rfl

theorem check_usage_reset_at (now : Int) (p : Profile) :
    (check_and_reset_usage now p).usage_reset_at =
      if p.usage_reset_at < now - hoursI 6 then now else p.usage_reset_at := by
  simp only [check_and_reset_usage]
  split_ifs <;> rfl

theorem check_images_generated_today (now : Int) (p : Profile) :
    (check_and_reset_usage now p).images_generated_today =
      if p.image_gen_reset_at < now - hoursI 24 then 0 else p.images_generated_today := by
  simp only [check_and_reset_usage]
  split_ifs <;> rfl

theorem check_image_gen_reset_at (now : Int) (p : Profile) :
    (check_and_reset_usage now p).image_gen_reset_at =
      if p.image_gen_reset_at < now - hoursI 24 then now else p.image_gen_reset_at := by
  simp only [check_and_reset_usage]
  split_ifs <;> rfl

theorem check_is_plus (now : Int) (p : Profile) :
    (check_and_reset_usage now p).is_plus = p.is_plus := by
  simp only [check_and_reset_usage]
  split_ifs <;> rfl

theorem check_tcoins (now : Int) (p : Profile) :
    (check_and_reset_usage now p).tcoins = p.tcoins := by
  simp only [check_and_reset_usage]
  split_ifs <;> rfl

theorem check_fresh (now : Int) (p : Profile)
    (hu : ¬ p.usage_reset_at < now - hoursI 6)
    (hg : ¬ p.image_gen_reset_at < now - hoursI 24) :
    check_and_reset_usage now p = p := by
  simp only [check_and_reset_usage]
  simp [hu, hg]

theorem check_idem (now : Int) (p : Profile) :
    check_and_reset_usage now (check_and_reset_usage now p) =
      check_and_reset_usage now p := by
  apply check_fresh
  · rw [check_usage_reset_at]
    split_ifs with h <;> simp only [hoursI] at * <;> omega
  · rw [check_image_gen_reset_at]
    split_ifs with h <;> simp only [hoursI] at * <;> omega

/-! ### Big-step characterizations of the increment procedures -/

theorem get_user_limits_snd (now : Int) (p : Profile) :
    (get_user_limits now p).2 = check_and_reset_usage now p := rfl

theorem inc_msg_eq (now : Int) (p : Profile) (b : Bool) :
    increment_message_usage now p b =
      (let q := check_and_reset_usage now p
       if msgLimit q.is_plus - q.messages_used ≤ 0 then
         ({ allowed := false, reason := some .messages_limit, resets_at := none }, q)
       else if b = true ∧ imgPromptLimit q.is_plus - q.images_in_prompts_used ≤ 0 then
         ({ allowed := false, reason := some .images_prompt_limit, resets_at := none }, q)
       else
         ({ allowed := true, reason := none, resets_at := none },
          { q with
              messages_used := q.messages_used + 1
              images_in_prompts_used :=
                if b then q.images_in_prompts_used + 1
                else q.images_in_prompts_used })) := by
  simp only [increment_message_usage, get_user_limits, check_idem, msgLimit,
    imgPromptLimit]

theorem inc_gen_eq (now : Int) (p : Profile) :
    increment_image_gen_usage now p =
      (let q := check_and_reset_usage now p
       if imgGenLimit q.is_plus - q.images_generated_today ≤ 0 then
         ({ allowed := false, reason := some .images_gen_limit,
            resets_at := some (q.image_gen_reset_at + hoursI 24) }, q)
       else
         ({ allowed := true, reason := none, resets_at := none },
          { q with images_generated_today := q.images_generated_today + 1 })) := by
  simp only [increment_image_gen_usage, get_user_limits, check_idem, imgGenLimit]

/-! ### Iterating the increments inside one fresh window -/

theorem freshProfile_check (b : Bool) (t m i g : Int) :
    check_and_reset_usage t (freshProfile b t m i g) = freshProfile b t m i g := by
  apply check_fresh <;> simp [freshProfile, hoursI]

theorem iterMsg_fresh (b : Bool) (t : Int) (k : Nat)
    (hk : (k : Int) ≤ msgLimit b) :
    iterMsg t k (freshProfile b t 0 0 0) = freshProfile b t (k : Int) 0 0 := by
  induction k with
  | zero => simp [iterMsg]
  | succ n ih =>
    have hn : (n : Int) < msgLimit b := by push_cast at hk; omega
    rw [iterMsg, ih (le_of_lt hn), inc_msg_eq]
    simp only [freshProfile_check]
    rw [if_neg (by simp only [freshProfile]; omega)]
    rw [if_neg (by simp)]
    simp only [freshProfile, Profile.mk.injEq]
    push_cast
    simp

theorem iterGen_fresh (b : Bool) (t : Int) (k : Nat)
    (hk : (k : Int) ≤ imgGenLimit b) :
    iterGen t k (freshProfile b t 0 0 0) = freshProfile b t 0 0 (k : Int) := by
  induction k with
  | zero => simp [iterGen]
  | succ n ih =>
    have hn : (n : Int) < imgGenLimit b := by push_cast at hk; omega
    rw [iterGen, ih (le_of_lt hn), inc_gen_eq]
    simp only [freshProfile_check]
    rw [if_neg (by simp only [freshProfile]; omega)]
    simp only [freshProfile, Profile.mk.injEq]
    push_cast
    simp

/-! ### Claim C4 (corrected): the reset boundary is strict -/

/-- C4, counterexample: at elapsed time exactly 6 hours (and exactly 24
hours for the image window) the claimed reset does NOT fire —
`check_and_reset_usage` uses a strict comparison, so a row whose anchors
are exactly one window old keeps its counters and anchors. -/
theorem C4_boundary_counterexample :
    hoursI 6 - (freshProfile false 0 7 3 4).usage_reset_at = hoursI 6 ∧
    (check_and_reset_usage (hoursI 6) (freshProfile false 0 7 3 4)).messages_used = 7 ∧
    (check_and_reset_usage (hoursI 6) (freshProfile false 0 7 3 4)).usage_reset_at ≠ hoursI 6 ∧
    hoursI 24 - (freshProfile false 0 7 3 4).image_gen_reset_at = hoursI 24 ∧
    (check_and_reset_usage (hoursI 24) (freshProfile false 0 7 3 4)).images_generated_today = 4 ∧
    (check_and_reset_usage (hoursI 24) (freshProfile false 0 7 3 4)).image_gen_reset_at ≠ hoursI 24 := by
  decide

/-- C4 (amended): one call to `check_and_reset_usage` zeroes
`messages_used` and `images_in_prompts_used` and sets `usage_reset_at`
to `now` exactly when `now - usage_reset_at` is strictly greater than 6
hours (at elapsed time ≤ 6h, the boundary included, those fields are
untouched); the 24-hour image-generation reset fires exactly at elapsed
time strictly greater than 24 hours. -/
theorem C4_reset_strict_boundary (now : Int) (p : Profile) :
    (hoursI 6 < now - p.usage_reset_at →
      (check_and_reset_usage now p).messages_used = 0 ∧
      (check_and_reset_usage now p).images_in_prompts_used = 0 ∧
      (check_and_reset_usage now p).usage_reset_at = now) ∧
    (now - p.usage_reset_at ≤ hoursI 6 →
      (check_and_reset_usage now p).messages_used = p.messages_used ∧
      (check_and_reset_usage now p).images_in_prompts_used = p.images_in_prompts_used ∧
      (check_and_reset_usage now p).usage_reset_at = p.usage_reset_at) ∧
    (hoursI 24 < now - p.image_gen_reset_at →
      (check_and_reset_usage now p).images_generated_today = 0 ∧
      (check_and_reset_usage now p).image_gen_reset_at = now) ∧
    (now - p.image_gen_reset_at ≤ hoursI 24 →
      (check_and_reset_usage now p).images_generated_today = p.images_generated_today ∧
      (check_and_reset_usage now p).image_gen_reset_at = p.image_gen_reset_at) := by
  refine ⟨fun h => ?_, fun h => ?_, fun h => ?_, fun h => ?_⟩
  · rw [check_messages_used, check_images_in_prompts_used, check_usage_reset_at]
    split_ifs with hc
    · exact ⟨rfl, rfl, rfl⟩
    · exact absurd hc (by omega)
  · rw [check_messages_used, check_images_in_prompts_used, check_usage_reset_at]
    split_ifs with hc
    · exact absurd hc (by omega)
    · exact ⟨rfl, rfl, rfl⟩
  · rw [check_images_generated_today, check_image_gen_reset_at]
    split_ifs with hc
    · exact ⟨rfl, rfl⟩
    · exact absurd hc (by omega)
  · rw [check_images_generated_today, check_image_gen_reset_at]
    split_ifs with hc
    · exact absurd hc (by omega)
    · exact ⟨rfl, rfl⟩

/-- C4, witness: a row 7 hours old is reset; a row 6 hours old is not. -/
theorem C4_reset_strict_boundary_witness :
    ((check_and_reset_usage (hoursI 7) (freshProfile false 0 7 3 4)).messages_used = 0 ∧
      (check_and_reset_usage (hoursI 7) (freshProfile false 0 7 3 4)).images_in_prompts_used = 0 ∧
      (check_and_reset_usage (hoursI 7) (freshProfile false 0 7 3 4)).usage_reset_at = hoursI 7) ∧
    ((check_and_reset_usage (hoursI 6) (freshProfile false 0 7 3 4)).messages_used =
        (freshProfile false 0 7 3 4).messages_used ∧
      (check_and_reset_usage (hoursI 6) (freshProfile false 0 7 3 4)).images_in_prompts_used =
        (freshProfile false 0 7 3 4).images_in_prompts_used ∧
      (check_and_reset_usage (hoursI 6) (freshProfile false 0 7 3 4)).usage_reset_at =
        (freshProfile false 0 7 3 4).usage_reset_at) :=
  ⟨(C4_reset_strict_boundary (hoursI 7) (freshProfile false 0 7 3 4)).1 (by decide),
   (C4_reset_strict_boundary (hoursI 6) (freshProfile false 0 7 3 4)).2.1 (by decide)⟩

/-! ### Claim C5: the two windows reset independently -/

/-- C5: the two windows reset independently — a stale 6-hour anchor
(elapsed strictly beyond 6h, the code's firing condition) with a fresh
24-hour anchor resets only `messages_used`/`images_in_prompts_used` and
stamps only `usage_reset_at`, leaving `images_generated_today` and
`image_gen_reset_at` (and every other column) unchanged; symmetrically,
a stale 24-hour anchor with a fresh 6-hour anchor resets only the
image-generation group. -/
theorem C5_windows_independent (now : Int) (p : Profile) :
    (hoursI 6 < now - p.usage_reset_at → now - p.image_gen_reset_at < hoursI 24 →
      check_and_reset_usage now p =
        { p with messages_used := 0, images_in_prompts_used := 0, usage_reset_at := now }) ∧
    (now - p.usage_reset_at < hoursI 6 → hoursI 24 < now - p.image_gen_reset_at →
      check_and_reset_usage now p =
        { p with images_generated_today := 0, image_gen_reset_at := now }) := by
  refine ⟨fun h1 h2 => ?_, fun h1 h2 => ?_⟩ <;> simp only [check_and_reset_usage]
  · rw [if_neg (show ¬ p.image_gen_reset_at < now - hoursI 24 by omega),
      if_pos (show p.usage_reset_at < now - hoursI 6 by omega)]
  · rw [if_pos (show p.image_gen_reset_at < now - hoursI 24 by omega),
      if_neg (show ¬ p.usage_reset_at < now - hoursI 6 by omega)]

/-- C5, witness: a 7-hour-old message anchor with a 7-hour-old image
anchor resets only the message group; `pC5` (fresh message anchor, stale
image anchor) resets only the image group. -/
theorem C5_windows_independent_witness :
    check_and_reset_usage (hoursI 7) (freshProfile false 0 7 3 4) =
      { freshProfile false 0 7 3 4 with
          messages_used := 0, images_in_prompts_used := 0, usage_reset_at := hoursI 7 } ∧
    check_and_reset_usage (hoursI 25) pC5 =
      { pC5 with images_generated_today := 0, image_gen_reset_at := hoursI 25 } :=
  ⟨(C5_windows_independent (hoursI 7) (freshProfile false 0 7 3 4)).1 (by decide) (by decide),
   (C5_windows_independent (hoursI 25) pC5).2 (by decide) (by decide)⟩

/-! ### Claim C6: the reset check is idempotent -/

/-- C6: `check_and_reset_usage` is idempotent — when
`now - usage_reset_at < 6h` the call leaves `messages_used`,
`images_in_prompts_used` and `usage_reset_at` unchanged, and likewise
for the 24-hour group when `now - image_gen_reset_at < 24h`; in
particular a second call at the same `now` (e.g. immediately after a
reset has fired) changes nothing at all. -/
theorem C6_reset_idempotent (now : Int) (p : Profile) :
    (now - p.usage_reset_at < hoursI 6 →
      (check_and_reset_usage now p).messages_used = p.messages_used ∧
      (check_and_reset_usage now p).images_in_prompts_used = p.images_in_prompts_used ∧
      (check_and_reset_usage now p).usage_reset_at = p.usage_reset_at) ∧
    (now - p.image_gen_reset_at < hoursI 24 →
      (check_and_reset_usage now p).images_generated_today = p.images_generated_today ∧
      (check_and_reset_usage now p).image_gen_reset_at = p.image_gen_reset_at) ∧
    check_and_reset_usage now (check_and_reset_usage now p) =
      check_and_reset_usage now p := by
  refine ⟨fun h => ?_, fun h => ?_, check_idem now p⟩
  · rw [check_messages_used, check_images_in_prompts_used, check_usage_reset_at]
    rw [if_neg (by omega), if_neg (by omega), if_neg (by omega)]
    exact ⟨rfl, rfl, rfl⟩
  · rw [check_images_generated_today, check_image_gen_reset_at]
    rw [if_neg (by omega), if_neg (by omega)]
    exact ⟨rfl, rfl⟩

/-- C6, witness: at `now = 0` a row with both anchors at 0 is untouched,
and the immediate-second-call no-op holds for it. -/
theorem C6_reset_idempotent_witness :
    ((check_and_reset_usage 0 (freshProfile false 0 7 3 4)).messages_used =
        (freshProfile false 0 7 3 4).messages_used ∧
      (check_and_reset_usage 0 (freshProfile false 0 7 3 4)).images_in_prompts_used =
        (freshProfile false 0 7 3 4).images_in_prompts_used ∧
      (check_and_reset_usage 0 (freshProfile false 0 7 3 4)).usage_reset_at =
        (freshProfile false 0 7 3 4).usage_reset_at) ∧
    check_and_reset_usage 0 (check_and_reset_usage 0 (freshProfile false 0 7 3 4)) =
      check_and_reset_usage 0 (freshProfile false 0 7 3 4) :=
  ⟨(C6_reset_idempotent 0 (freshProfile false 0 7 3 4)).1 (by decide),
   (C6_reset_idempotent 0 (freshProfile false 0 7 3 4)).2.2⟩

/-! ### Claim C1: image-prompt refusal mutates nothing -/

/-- C1: whenever `increment_message_usage(_, hasImage := true)` is
refused with reason `images_prompt_limit`, neither `messages_used` nor
`images_in_prompts_used` is mutated by the call — both limit checks run
before the single `UPDATE`; moreover the refusal does occur whenever,
inside a window that does not reset at this call, the image-prompt
counter is at or above its limit while the message counter is below
its limit. -/
theorem C1_image_refusal_no_mutation (now : Int) (p : Profile) :
    ((increment_message_usage now p true).1.reason = some .images_prompt_limit →
      (increment_message_usage now p true).2.messages_used = p.messages_used ∧
      (increment_message_usage now p true).2.images_in_prompts_used =
        p.images_in_prompts_used) ∧
    (¬ p.usage_reset_at < now - hoursI 6 →
      imgPromptLimit p.is_plus ≤ p.images_in_prompts_used →
      p.messages_used < msgLimit p.is_plus →
      (increment_message_usage now p true).1 =
        { allowed := false, reason := some .images_prompt_limit, resets_at := none }) := by
  constructor
  · intro h
    simp only [inc_msg_eq] at h ⊢
    split_ifs at h ⊢ with h1 h2
    · simp at h
    · by_cases hu : p.usage_reset_at < now - hoursI 6
      · exfalso
        have e1 : (check_and_reset_usage now p).images_in_prompts_used = 0 := by
          rw [check_images_in_prompts_used, if_pos hu]
        rw [check_is_plus, e1] at h2
        cases hb : p.is_plus <;> rw [hb] at h2 <;>
          simp [imgPromptLimit] at h2
      · rw [check_messages_used, if_neg hu, check_images_in_prompts_used, if_neg hu]
        exact ⟨rfl, rfl⟩
  · intro hu hi hm
    have e1 : (check_and_reset_usage now p).messages_used = p.messages_used := by
      rw [check_messages_used, if_neg hu]
    have e2 : (check_and_reset_usage now p).images_in_prompts_used =
        p.images_in_prompts_used := by
      rw [check_images_in_prompts_used, if_neg hu]
    simp only [inc_msg_eq, e1, e2, check_is_plus]
    rw [if_neg (by omega), if_pos ⟨by trivial, by omega⟩]

/-- C1, witness: a free row with 10 of 10 prompt images and 3 of 50
messages inside a fresh window is refused with `images_prompt_limit`
and both counters are left untouched. -/
theorem C1_image_refusal_no_mutation_witness :
    (increment_message_usage 0 (freshProfile false 0 3 10 0) true).1 =
      { allowed := false, reason := some .images_prompt_limit, resets_at := none } ∧
    (increment_message_usage 0 (freshProfile false 0 3 10 0) true).2.messages_used =
      (freshProfile false 0 3 10 0).messages_used ∧
    (increment_message_usage 0 (freshProfile false 0 3 10 0) true).2.images_in_prompts_used =
      (freshProfile false 0 3 10 0).images_in_prompts_used := by
  have hr := (C1_image_refusal_no_mutation 0 (freshProfile false 0 3 10 0)).2
    (by decide) (by decide) (by decide)
  have hf := (C1_image_refusal_no_mutation 0 (freshProfile false 0 3 10 0)).1
    (by rw [hr])
  exact ⟨hr, hf.1, hf.2⟩

/-! ### Claim C2: message-limit exhaustion for both tiers -/

/-- C2: starting a fresh 6-hour window at 0 messages and never sending
images, `increment_message_usage` succeeds on each of the first
`messages_limit` calls, each success adding exactly 1 to
`messages_used`; the next call is refused with reason `messages_limit`
and leaves the row unchanged; and any row whose `messages_used` equals
its tier limit inside a fresh window is denied — for both tiers,
free limit 50 and plus limit 1000. -/
theorem C2_message_limit_exhaustion (b : Bool) (t : Int) :
    msgLimit false = 50 ∧ msgLimit true = 1000 ∧
    (∀ k : Nat, (k : Int) < msgLimit b →
      (increment_message_usage t (iterMsg t k (freshProfile b t 0 0 0)) false).1 =
        { allowed := true, reason := none, resets_at := none } ∧
      (iterMsg t (k + 1) (freshProfile b t 0 0 0)).messages_used =
        (iterMsg t k (freshProfile b t 0 0 0)).messages_used + 1) ∧
    (increment_message_usage t (iterMsg t (msgLimit b).toNat (freshProfile b t 0 0 0))
        false).1 =
      { allowed := false, reason := some .messages_limit, resets_at := none } ∧
    (increment_message_usage t (iterMsg t (msgLimit b).toNat (freshProfile b t 0 0 0))
        false).2 =
      iterMsg t (msgLimit b).toNat (freshProfile b t 0 0 0) ∧
    (∀ p : Profile, p.usage_reset_at = t → p.messages_used = msgLimit p.is_plus →
      (increment_message_usage t p false).1.allowed = false) := by
  have hL : ((msgLimit b).toNat : Int) = msgLimit b := by
    cases b <;> decide
  have hiterL : iterMsg t (msgLimit b).toNat (freshProfile b t 0 0 0) =
      freshProfile b t (msgLimit b) 0 0 := by
    rw [iterMsg_fresh b t (msgLimit b).toNat (le_of_eq hL), hL]
  refine ⟨by decide, by decide, fun k hk => ?_, ?_, ?_, fun p hpu hpm => ?_⟩
  · have hk1 : ((k + 1 : Nat) : Int) ≤ msgLimit b := by push_cast; omega
    rw [iterMsg_fresh b t k (le_of_lt hk), iterMsg_fresh b t (k + 1) hk1]
    constructor
    · rw [inc_msg_eq]
      simp only [freshProfile_check]
      rw [if_neg (by simp only [freshProfile]; omega), if_neg (by simp)]
    · simp only [freshProfile]
      push_cast
      ring
  · rw [hiterL, inc_msg_eq]
    simp only [freshProfile_check]
    rw [if_pos (by simp only [freshProfile]; omega)]
  · rw [hiterL, inc_msg_eq]
    simp only [freshProfile_check]
    rw [if_pos (by simp only [freshProfile]; omega)]
  · have hu : ¬ p.usage_reset_at < t - hoursI 6 := by
      rw [hpu]; simp only [hoursI]; omega
    have e1 : (check_and_reset_usage t p).messages_used = p.messages_used := by
      rw [check_messages_used, if_neg hu]
    simp only [inc_msg_eq, e1, check_is_plus]
    rw [if_pos (by omega)]

/-- C2, witness: the very first call of the free tier's fresh window
succeeds and takes `messages_used` from 0 to 1. -/
theorem C2_message_limit_exhaustion_witness :
    ((0 : Nat) : Int) < msgLimit false ∧
    ((increment_message_usage 0 (iterMsg 0 0 (freshProfile false 0 0 0 0)) false).1 =
        { allowed := true, reason := none, resets_at := none } ∧
      (iterMsg 0 1 (freshProfile false 0 0 0 0)).messages_used =
        (iterMsg 0 0 (freshProfile false 0 0 0 0)).messages_used + 1) :=
  ⟨by decide, (C2_message_limit_exhaustion false 0).2.2.1 0 (by decide)⟩

/-! ### Claim C3: image-generation exhaustion and its reset payload -/

/-- C3: starting a fresh 24-hour window at 0 generations,
`increment_image_gen_usage` succeeds on each of the first
`images_gen_limit` calls (free 5, plus 15), each adding 1 to
`images_generated_today`; the next call is refused with reason
`images_gen_limit` carrying `resets_at` equal to the stored
`image_gen_reset_at` plus 24 hours, and it leaves the row unchanged. -/
theorem C3_image_gen_exhaustion (b : Bool) (t : Int) :
    imgGenLimit false = 5 ∧ imgGenLimit true = 15 ∧
    (∀ k : Nat, (k : Int) < imgGenLimit b →
      (increment_image_gen_usage t (iterGen t k (freshProfile b t 0 0 0))).1 =
        { allowed := true, reason := none, resets_at := none } ∧
      (iterGen t (k + 1) (freshProfile b t 0 0 0)).images_generated_today =
        (iterGen t k (freshProfile b t 0 0 0)).images_generated_today + 1) ∧
    (increment_image_gen_usage t (iterGen t (imgGenLimit b).toNat
        (freshProfile b t 0 0 0))).1 =
      { allowed := false, reason := some .images_gen_limit,
        resets_at := some ((freshProfile b t 0 0 0).image_gen_reset_at + hoursI 24) } ∧
    (increment_image_gen_usage t (iterGen t (imgGenLimit b).toNat
        (freshProfile b t 0 0 0))).2 =
      iterGen t (imgGenLimit b).toNat (freshProfile b t 0 0 0) := by
  have hL : ((imgGenLimit b).toNat : Int) = imgGenLimit b := by
    cases b <;> decide
  have hiterL : iterGen t (imgGenLimit b).toNat (freshProfile b t 0 0 0) =
      freshProfile b t 0 0 (imgGenLimit b) := by
    rw [iterGen_fresh b t (imgGenLimit b).toNat (le_of_eq hL), hL]
  refine ⟨by decide, by decide, fun k hk => ?_, ?_, ?_⟩
  · have hk1 : ((k + 1 : Nat) : Int) ≤ imgGenLimit b := by push_cast; omega
    rw [iterGen_fresh b t k (le_of_lt hk), iterGen_fresh b t (k + 1) hk1]
    constructor
    · rw [inc_gen_eq]
      simp only [freshProfile_check]
      rw [if_neg (by simp only [freshProfile]; omega)]
    · simp only [freshProfile]
      push_cast
      ring
  · rw [hiterL, inc_gen_eq]
    simp only [freshProfile_check]
    rw [if_pos (by simp only [freshProfile]; omega)]
    rfl
  · rw [hiterL, inc_gen_eq]
    simp only [freshProfile_check]
    rw [if_pos (by simp only [freshProfile]; omega)]

/-- C3, witness: the first generation of the free tier's fresh window
succeeds and takes `images_generated_today` from 0 to 1. -/
theorem C3_image_gen_exhaustion_witness :
    ((0 : Nat) : Int) < imgGenLimit false ∧
    ((increment_image_gen_usage 0 (iterGen 0 0 (freshProfile false 0 0 0 0))).1 =
        { allowed := true, reason := none, resets_at := none } ∧
      (iterGen 0 1 (freshProfile false 0 0 0 0)).images_generated_today =
        (iterGen 0 0 (freshProfile false 0 0 0 0)).images_generated_today + 1) :=
  ⟨by decide, (C3_image_gen_exhaustion false 0).2.2.1 0 (by decide)⟩

/-! ### Claim C7: counters stay non-negative -/

theorem counters_nonneg_check (now : Int) (p : Profile)
    (h1 : 0 ≤ p.messages_used) (h2 : 0 ≤ p.images_in_prompts_used)
    (h3 : 0 ≤ p.images_generated_today) :
    0 ≤ (check_and_reset_usage now p).messages_used ∧
    0 ≤ (check_and_reset_usage now p).images_in_prompts_used ∧
    0 ≤ (check_and_reset_usage now p).images_generated_today := by
  refine ⟨?_, ?_, ?_⟩
  · rw [check_messages_used]; split_ifs <;> omega
  · rw [check_images_in_prompts_used]; split_ifs <;> omega
  · rw [check_images_generated_today]; split_ifs <;> omega

/-- C7: starting from the account-creation row (all counters 0, both
anchors at creation time), every row reachable through the quota
engine's operations — `check_and_reset_usage`, `get_user_limits`,
`increment_message_usage`, `increment_image_gen_usage`, each at an
arbitrary invocation time — keeps `messages_used ≥ 0`,
`images_in_prompts_used ≥ 0` and `images_generated_today ≥ 0`. -/
theorem C7_counters_nonneg (creation : Int) (p : Profile)
    (h : Reachable creation p) :
    0 ≤ p.messages_used ∧ 0 ≤ p.images_in_prompts_used ∧
    0 ≤ p.images_generated_today := by
  induction h with
  | init => exact ⟨le_refl 0, le_refl 0, le_refl 0⟩
  | step q now op hq ih =>
    obtain ⟨i1, i2, i3⟩ := ih
    obtain ⟨c1, c2, c3⟩ := counters_nonneg_check now q i1 i2 i3
    cases op with
    | checkReset => exact ⟨c1, c2, c3⟩
    | getLimits => exact ⟨c1, c2, c3⟩
    | incMessage b =>
      simp only [applyOp, inc_msg_eq]
      split_ifs with hA hB
      · exact ⟨c1, c2, c3⟩
      · exact ⟨c1, c2, c3⟩
      · refine ⟨?_, ?_, c3⟩
        · show 0 ≤ (check_and_reset_usage now q).messages_used + 1
          omega
        · show 0 ≤ (check_and_reset_usage now q).images_in_prompts_used + 1
          omega
      · refine ⟨?_, c2, c3⟩
        show 0 ≤ (check_and_reset_usage now q).messages_used + 1
        omega
    | incImageGen =>
      simp only [applyOp, inc_gen_eq]
      split_ifs with hA
      · exact ⟨c1, c2, c3⟩
      · refine ⟨c1, c2, ?_⟩
        show 0 ≤ (check_and_reset_usage now q).images_generated_today + 1
        omega

/-- C7, witness: the account-creation row itself is reachable and its
counters are non-negative. -/
theorem C7_counters_nonneg_witness :
    0 ≤ (newProfile 0).messages_used ∧
    0 ≤ (newProfile 0).images_in_prompts_used ∧
    0 ≤ (newProfile 0).images_generated_today :=
  C7_counters_nonneg 0 (newProfile 0) Reachable.init

/-! ### Claim C8: the limits snapshot -/

/-- C8: `get_user_limits` first runs the reset check (the returned row
is exactly `check_and_reset_usage`'s output), and its snapshot reports
each remaining value as limit minus used with no clamping at zero (a
row with used above its limit is reported with negative remaining), and
the two reported reset instants are `usage_reset_at + 6h` and
`image_gen_reset_at + 24h` of the post-check row. -/
theorem C8_limits_snapshot (now : Int) (p : Profile) :
    (get_user_limits now p).2 = check_and_reset_usage now p ∧
    (get_user_limits now p).1.messages_limit =
      msgLimit (check_and_reset_usage now p).is_plus ∧
    (get_user_limits now p).1.messages_remaining =
      (get_user_limits now p).1.messages_limit -
        (check_and_reset_usage now p).messages_used ∧
    (get_user_limits now p).1.images_prompt_remaining =
      (get_user_limits now p).1.images_prompt_limit -
        (check_and_reset_usage now p).images_in_prompts_used ∧
    (get_user_limits now p).1.images_gen_remaining =
      (get_user_limits now p).1.images_gen_limit -
        (check_and_reset_usage now p).images_generated_today ∧
    (get_user_limits now p).1.usage_resets_at =
      (check_and_reset_usage now p).usage_reset_at + hoursI 6 ∧
    (get_user_limits now p).1.image_gen_resets_at =
      (check_and_reset_usage now p).image_gen_reset_at + hoursI 24 ∧
    ((get_user_limits now p).1.messages_limit <
        (check_and_reset_usage now p).messages_used →
      (get_user_limits now p).1.messages_remaining < 0) := by
  refine ⟨rfl, rfl, rfl, rfl, rfl, rfl, rfl, fun h => ?_⟩
  have e : (get_user_limits now p).1.messages_remaining =
      (get_user_limits now p).1.messages_limit -
        (check_and_reset_usage now p).messages_used := rfl
  omega

/-- C8, witness: a free row with 60 messages used inside a fresh window
is reported with remaining equal to 50 − 60 = −10, unclamped. -/
theorem C8_limits_snapshot_witness :
    (get_user_limits 0 (freshProfile false 0 60 0 0)).1.messages_limit <
      (check_and_reset_usage 0 (freshProfile false 0 60 0 0)).messages_used ∧
    (get_user_limits 0 (freshProfile false 0 60 0 0)).1.messages_remaining < 0 :=
  ⟨by decide,
   (C8_limits_snapshot 0 (freshProfile false 0 60 0 0)).2.2.2.2.2.2.2 (by decide)⟩

/-! ### Claim C9 (corrected): the upgrade's frame, and 50 vs 500 -/

/-- C9, counterexample: the claim says the upgrade changes the reported
messages limit from 500 to 1000, but the free tier's reported
`messages_limit` is 50, not 500 — here a concrete free row (`pC9`) that
the promo upgrade accepts is reported with limit 50 before the
upgrade. -/
theorem C9_limits_counterexample :
    (apply_promo_and_upgrade 0 2592000 (some prC9) (some pC9)).1 =
      .success 250 50 ∧
    (get_user_limits 0 pC9).1.messages_limit = 50 ∧
    (50 : Int) ≠ 500 := by
  decide

/-- C9 (amended): `apply_promo_and_upgrade` leaves `messages_used`,
`images_in_prompts_used`, `images_generated_today`, `usage_reset_at`
and `image_gen_reset_at` unchanged on every row it returns (it touches
only `tcoins`, `is_plus` and `plus_expires_at`); only the tier-derived
limits reported afterwards change — 50 → 1000 for messages — with no
retroactive reset of counters or anchors. -/
theorem C9_upgrade_frame (now monthLen : Int) (pr : PromoCode)
    (pf pf' : Profile)
    (h : (apply_promo_and_upgrade now monthLen (some pr) (some pf)).2 = some pf') :
    pf'.messages_used = pf.messages_used ∧
    pf'.images_in_prompts_used = pf.images_in_prompts_used ∧
    pf'.images_generated_today = pf.images_generated_today ∧
    pf'.usage_reset_at = pf.usage_reset_at ∧
    pf'.image_gen_reset_at = pf.image_gen_reset_at ∧
    (pf.is_plus = false → (get_user_limits now pf).1.messages_limit = msgLimit false) ∧
    (pf'.is_plus = true → (get_user_limits now pf').1.messages_limit = msgLimit true) ∧
    msgLimit false = 50 ∧ msgLimit true = 1000 := by
  have hlim : ∀ r : Profile, (get_user_limits now r).1.messages_limit =
      msgLimit r.is_plus := by
    intro r
    show (if (check_and_reset_usage now r).is_plus then (1000 : Int) else 50) = _
    rw [check_is_plus]
    rfl
  simp only [apply_promo_and_upgrade] at h
  split_ifs at h with h1 h2
  · simp only [Option.some.injEq] at h
    subst h
    refine ⟨rfl, rfl, rfl, rfl, rfl, fun hf => ?_, fun ht => ?_, rfl, rfl⟩
    · rw [hlim, hf]
    · rw [hlim, ht]
  · simp only [Option.some.injEq] at h
    subst h
    refine ⟨rfl, rfl, rfl, rfl, rfl, fun hf => ?_, fun ht => ?_, rfl, rfl⟩
    · rw [hlim, hf]
    · rw [hlim, ht]
  · simp only [Option.some.injEq] at h
    subst h
    refine ⟨rfl, rfl, rfl, rfl, rfl, fun hf => ?_, fun ht => ?_, rfl, rfl⟩
    · rw [hlim, hf]
    · rw [hlim, ht]

/-- C9, witness: upgrading `pC9` succeeds, yields `pC9up`, and all five
quota columns are unchanged while the reported messages limit moves
from `msgLimit false` to `msgLimit true`. -/
theorem C9_upgrade_frame_witness :
    pC9up.messages_used = pC9.messages_used ∧
    pC9up.usage_reset_at = pC9.usage_reset_at ∧
    pC9up.image_gen_reset_at = pC9.image_gen_reset_at ∧
    (get_user_limits 0 pC9up).1.messages_limit = msgLimit true :=
  ⟨(C9_upgrade_frame 0 2592000 prC9 pC9 pC9up (by decide)).1,
   (C9_upgrade_frame 0 2592000 prC9 pC9 pC9up (by decide)).2.2.2.1,
   (C9_upgrade_frame 0 2592000 prC9 pC9 pC9up (by decide)).2.2.2.2.1,
   (C9_upgrade_frame 0 2592000 prC9 pC9 pC9up (by decide)).2.2.2.2.2.2.1 rfl⟩

/-! ### Claim C10: only image-generation refusals carry a reset time -/

/-- C10: a refusal from `increment_message_usage` (either reason) has
no `resets_at` — its payload is only the flag and the reason — while a
refusal from `increment_image_gen_usage` always carries `resets_at`,
equal to the post-check `image_gen_reset_at + 24h`. -/
theorem C10_resets_at_only_image_gen (now : Int) (p : Profile) (b : Bool) :
    ((increment_message_usage now p b).1.allowed = false →
      (increment_message_usage now p b).1.resets_at = none ∧
      ((increment_message_usage now p b).1.reason = some .messages_limit ∨
        (increment_message_usage now p b).1.reason = some .images_prompt_limit)) ∧
    ((increment_image_gen_usage now p).1.allowed = false →
      (increment_image_gen_usage now p).1.resets_at =
        some ((check_and_reset_usage now p).image_gen_reset_at + hoursI 24) ∧
      (increment_image_gen_usage now p).1.reason = some .images_gen_limit) := by
  constructor
  · intro h
    simp only [inc_msg_eq] at h ⊢
    split_ifs at h ⊢ <;> simp_all
  · intro h
    simp only [inc_gen_eq] at h ⊢
    split_ifs at h ⊢
    simp_all

/-- C10, witness: a fully exhausted free row is refused by both
procedures; the message refusal carries no reset time, the
image-generation refusal carries the anchor plus 24 hours. -/
theorem C10_resets_at_only_image_gen_witness :
    (increment_message_usage 0 (freshProfile false 0 50 10 5) false).1.resets_at =
      none ∧
    (increment_image_gen_usage 0 (freshProfile false 0 50 10 5)).1.resets_at =
      some ((check_and_reset_usage 0 (freshProfile false 0 50 10 5)).image_gen_reset_at +
        hoursI 24) :=
  ⟨((C10_resets_at_only_image_gen 0 (freshProfile false 0 50 10 5) false).1
      (by decide)).1,
   ((C10_resets_at_only_image_gen 0 (freshProfile false 0 50 10 5) false).2
      (by decide)).1⟩

end ThetAI
